import Mathlib

/-!
# Verification of the thorcam camera service

Shallow embedding of the `thorcam` package (files `thorcam/camera.py` and
`thorcam/camera_dot_net.py`) and proofs of the specified properties.

Modelling conventions:

* Python values that travel through the yaml wire protocol, the settings
  store and the queues are modelled by the inductive type `PyVal`
  (Python tuples and lists are both `PyVal.tuple`, which is also how the
  yaml codec conflates them).
* Python floats are modelled as exact rationals (the operations performed
  by the code — `min`, `max`, `* 1000`, `/ 1000.`, `int()` — are exact on
  the decimal values used by the settings protocol).
* The .NET camera object (the vendor "Driver Adapter", out of scope per the
  spec) is modelled by the `Driver` structure: a record of the values its
  getters return.  Every call into .NET is recorded in an action trace, and
  a call whose .NET method name is listed in `Driver.throws` raises.
* Dynamic instance attributes (the `setattr` mirror of the settings maps)
  are modelled by `Store`, an association list with the class-level
  defaults of `ThorCamBase` as fallback.
* The camera control thread `TSICamera.camera_run` is an interpreter from a
  script of queue observations to a trace of actions (driver calls,
  `write_setting` invocations, and events put on `from_cam_queue`),
  fuel-bounded; `none` means the run has not terminated.
-/

namespace Thorcam

/-- A Python value as it appears in the message protocol and the settings
store. Lists and tuples are identified (the yaml codec round-trips tuples
as sequences). -/
inductive PyVal where
  | none
  | bool (b : Bool)
  | int (n : Int)
  | float (q : ℚ)
  | str (s : String)
  | bytes (bs : List Nat)
  | tuple (xs : List PyVal)
  | dict (xs : List (String × PyVal))

mutual

/-- Python `==` on values (structural; mirrors equality of the yaml value
shapes used by the protocol). -/
def pyEq : PyVal → PyVal → Bool
  | .none, .none => true
  | .bool a, .bool b => a == b
  | .int a, .int b => a == b
  | .float a, .float b => decide (a = b)
  | .str a, .str b => a == b
  | .bytes a, .bytes b => a == b
  | .tuple as, .tuple bs => pyEqList as bs
  | .dict as, .dict bs => pyEqDict as bs
  | _, _ => false

/-- Python `==` on sequences, elementwise. -/
def pyEqList : List PyVal → List PyVal → Bool
  | [], [] => true
  | a :: as, b :: bs => pyEq a b && pyEqList as bs
  | _, _ => false

/-- Python `==` on string-keyed mappings in insertion order. -/
def pyEqDict : List (String × PyVal) → List (String × PyVal) → Bool
  | [], [] => true
  | (k, a) :: as, (l, b) :: bs => k == l && pyEq a b && pyEqDict as bs
  | _, _ => false

end

/-- Truthiness of a Python value (`if value:`). -/
def pyTruthy : PyVal → Bool
  | .none => false
  | .bool b => b
  | .int n => n != 0
  | .float q => decide (q ≠ 0)
  | .str s => s != ""
  | .bytes bs => !bs.isEmpty
  | .tuple xs => !xs.isEmpty
  | .dict xs => !xs.isEmpty

/-- Numeric view of a Python value (`bool` is an `int` in Python). -/
def asNum : PyVal → Option ℚ
  | .bool b => some (if b then 1 else 0)
  | .int n => some (n : ℚ)
  | .float q => some q
  | _ => Option.none

/-- Integer view of a Python value, for implicit conversion to a .NET
integer argument. -/
def pyIntLike : PyVal → Option Int
  | .bool b => some (if b then 1 else 0)
  | .int n => some n
  | _ => Option.none

/-- Whether the value is a Python float. -/
def isFloat : PyVal → Bool
  | .float _ => true
  | _ => false

/-- `int()` truncation toward zero of a rational. -/
def truncQ (q : ℚ) : Int := if 0 ≤ q then ⌊q⌋ else ⌈q⌉

/-- `str()` of a value as used in error-message formatting (only strings
and integers are formatted exactly; other rendered forms are opaque). -/
def pyFormat : PyVal → String
  | .str s => s
  | .int n => toString n
  | _ => "<value>"

end Thorcam

namespace Thorcam

/-- The `(w, h)`-style ROI/binning record returned by `get_ROIAndBin`. -/
structure RoiBin where
  binX : Int
  binY : Int
  originX : Int
  originY : Int
  width : Int
  height : Int
deriving DecidableEq

/-- One frame pending on the camera hardware queue, as consumed by
`read_frame`.  `raw` is the mono pixel data, `processed` the pixel data
after the (external) demosaic/color pipeline, `time` the `clock()`
timestamp observed for the poll. -/
structure Frame where
  number : Int
  w : Int
  h : Int
  raw : List Nat
  processed : List Nat
  time : ℚ
deriving DecidableEq

/-- What one `read_frame` poll of the hardware observes: the value of
`get_NumberOfQueuedFrames` and what `GetPendingFrameOrNull` would then
return. -/
structure FrameSlot where
  queued : Int
  frame : Option Frame
deriving DecidableEq

/-- A call into the .NET camera driver (or the color-processor /
demosaicker collaborators).  Arguments of setters are recorded. -/
inductive DriverCall where
  | openCamera (serial : String)
  | getExposureRange | getExposure | setExposure (us : Int)
  | getRoiBin | setRoiBin (r : RoiBin)
  | getBinXRange | getBinYRange
  | getSensorW | getSensorH
  | getMaxFrames | setMaxFrames (n : Int)
  | getFramesPerTrigger | setFramesPerTrigger (n : Int)
  | getOpMode | setOpMode (hardware : Bool)
  | getGainRange | getGain | setGain (n : Int)
  | getBlackRange | getBlackLevel | setBlackLevel (n : Int)
  | isRateSupported (rate : String) | getDataRate | setDataRate (rate : String)
  | isTapsSupported (t : String) | getTaps | setTaps (t : String)
  | getSensorType
  | createColorProcessor | createDemosaicker
  | insertColorMatrix (m : List ℚ) | removeColorMatrix
  | demosaic | transform48
  | arm | disarm | issueTrigger
  | getNumQueued | getPendingFrame
  | dispose | disposeDemosaic | disposeColor
deriving DecidableEq

/-- The .NET method name of a call, used to decide whether the driver
raises on it. -/
def DriverCall.callName : DriverCall → String
  | .openCamera _ => "OpenCamera"
  | .getExposureRange => "get_ExposureTimeRange_us"
  | .getExposure => "get_ExposureTime_us"
  | .setExposure _ => "set_ExposureTime_us"
  | .getRoiBin => "get_ROIAndBin"
  | .setRoiBin _ => "set_ROIAndBin"
  | .getBinXRange => "get_BinXRange"
  | .getBinYRange => "get_BinYRange"
  | .getSensorW => "get_SensorWidth_pixels"
  | .getSensorH => "get_SensorHeight_pixels"
  | .getMaxFrames => "get_MaximumNumberOfFramesToQueue"
  | .setMaxFrames _ => "set_MaximumNumberOfFramesToQueue"
  | .getFramesPerTrigger => "get_FramesPerTrigger_zeroForUnlimited"
  | .setFramesPerTrigger _ => "set_FramesPerTrigger_zeroForUnlimited"
  | .getOpMode => "get_OperationMode"
  | .setOpMode _ => "set_OperationMode"
  | .getGainRange => "get_GainRange"
  | .getGain => "get_Gain"
  | .setGain _ => "set_Gain"
  | .getBlackRange => "get_BlackLevelRange"
  | .getBlackLevel => "get_BlackLevel"
  | .setBlackLevel _ => "set_BlackLevel"
  | .isRateSupported _ => "GetIsDataRateSupported"
  | .getDataRate => "get_DataRate"
  | .setDataRate _ => "set_DataRate"
  | .isTapsSupported _ => "GetIsTapsSupported"
  | .getTaps => "get_Taps"
  | .setTaps _ => "set_Taps"
  | .getSensorType => "get_CameraSensorType"
  | .createColorProcessor => "CreateStandardRGBColorProcessor"
  | .createDemosaicker => "Demosaicker"
  | .insertColorMatrix _ => "InsertColorTransformMatrix"
  | .removeColorMatrix => "RemoveColorTransformMatrix"
  | .demosaic => "Demosaic"
  | .transform48 => "Transform48To48"
  | .arm => "Arm"
  | .disarm => "Disarm"
  | .issueTrigger => "IssueSoftwareTrigger"
  | .getNumQueued => "get_NumberOfQueuedFrames"
  | .getPendingFrame => "GetPendingFrameOrNull"
  | .dispose => "Dispose"
  | .disposeDemosaic => "Demosaicker.Dispose"
  | .disposeColor => "ColorProcessor.Dispose"

/-- The state of the vendor camera driver: the answers its getters return,
the frames waiting on its hardware queue, and the set of .NET method names
that raise when called (modelling `DriverError`s). -/
structure Driver where
  throws : List String := []
  exposureRangeUs : Int × Int := (0, 100000)
  exposureUs : Int := 5000
  binXRange : Int × Int := (1, 1)
  binYRange : Int × Int := (1, 1)
  roiBin : RoiBin := ⟨1, 1, 0, 0, 0, 0⟩
  sensorW : Int := 0
  sensorH : Int := 0
  maxFrames : Int := 1
  framesPerTrigger : Int := 1
  hwTriggered : Bool := false
  gainRange : Int × Int := (0, 0)
  gain : Int := 0
  blackRange : Int × Int := (0, 0)
  blackLevel : Int := 0
  rate20 : Bool := false
  rate40 : Bool := false
  fps30 : Bool := false
  fps50 : Bool := false
  dataRate : String := "20 MHz"
  tapsQuad : Bool := false
  tapsDual : Bool := false
  tapsSingle : Bool := false
  taps : String := "1"
  isBayer : Bool := false
  isArmed : Bool := false
  frames : List FrameSlot := []
deriving DecidableEq

/-- An action of the camera-side code below the event level: a driver call
or an invocation of `TSICamera.write_setting`. -/
inductive WAct where
  | drv (c : DriverCall)
  | ws (name : String) (value : PyVal)

/-- An observable action of the camera control thread: a driver call, a
`write_setting` invocation, or an event put on `from_cam_queue`. -/
inductive Act where
  | drv (c : DriverCall)
  | ws (name : String) (value : PyVal)
  | emit (tag : String) (value : PyVal)

/-- Inject a driver-level action into the full action type. -/
def wactToAct : WAct → Act
  | .drv c => .drv c
  | .ws n v => .ws n v

/-- Result of a computation of the camera code below the event level: the
driver calls it performed together with either its value or the message of
the Python exception it raised. -/
inductive Res (α : Type) where
  | ok (acts : List WAct) (a : α)
  | err (acts : List WAct) (e : String)

/-- Actions performed by a computation, whether or not it raised. -/
def Res.acts : Res α → List WAct
  | .ok as _ => as
  | .err as _ => as

/-- Sequencing that accumulates performed actions and propagates raised
exceptions. -/
def Res.bind : Res α → (α → Res β) → Res β
  | .ok as a, f =>
    match f a with
    | .ok bs b => .ok (as ++ bs) b
    | .err bs e => .err (as ++ bs) e
  | .err as e, _ => .err as e

instance : Monad Res where
  pure a := .ok [] a
  bind := Res.bind

/-- Record actions. -/
def outW (acts : List WAct) : Res Unit := .ok acts ()

/-- Raise a Python exception. -/
def raise (e : String) : Res α := .err [] e

@[simp] theorem bind_ok (as : List WAct) (a : α) (f : α → Res β) :
    (Res.ok as a >>= f) =
      (match f a with
        | .ok bs b => .ok (as ++ bs) b
        | .err bs e => .err (as ++ bs) e) := rfl

@[simp] theorem bind_err (as : List WAct) (e : String) (f : α → Res β) :
    ((Res.err as e : Res α) >>= f) = .err as e := rfl

@[simp] theorem pure_def (a : α) : (pure a : Res α) = .ok [] a := rfl

@[simp] theorem outW_def (acts : List WAct) : outW acts = .ok acts () := rfl

@[simp] theorem raise_def (e : String) : (raise e : Res α) = .err [] e := rfl

/-- Perform a driver call: raises when the driver is configured to throw
from that .NET method, otherwise records the call. -/
def drvCall (d : Driver) (c : DriverCall) : Res Unit :=
  if d.throws.contains c.callName then .err [] (c.callName ++ " raised")
  else .ok [.drv c] ()

/-- Python `min(a, b)`: returns the first argument unless the second is
strictly smaller; comparing non-numbers raises `TypeError`. -/
def pyMin (a b : PyVal) : Res PyVal :=
  match asNum a, asNum b with
  | some na, some nb => pure (if nb < na then b else a)
  | _, _ => raise "TypeError: comparison unsupported"

/-- Python `max(a, b)`: returns the first argument unless the second is
strictly larger. -/
def pyMax (a b : PyVal) : Res PyVal :=
  match asNum a, asNum b with
  | some na, some nb => pure (if na < nb then b else a)
  | _, _ => raise "TypeError: comparison unsupported"

/-- Python `a - b` on numbers (`int - int` stays `int`). -/
def pySub (a b : PyVal) : Res PyVal :=
  match pyIntLike a, pyIntLike b with
  | some m, some n => pure (.int (m - n))
  | _, _ =>
    match asNum a, asNum b with
    | some x, some y => pure (.float (x - y))
    | _, _ => raise "TypeError: unsupported operand"

/-- Python `a * 1000` (`int * int` stays `int`). -/
def pyMul1000 (a : PyVal) : Res PyVal :=
  match a with
  | .bool b => pure (.int (if b then 1000 else 0))
  | .int n => pure (.int (n * 1000))
  | .float q => pure (.float (q * 1000))
  | _ => raise "TypeError: unsupported operand"

/-- Python `int(a)` on a number: truncation toward zero. -/
def pyToInt (a : PyVal) : Res Int :=
  match a with
  | .bool b => pure (if b then 1 else 0)
  | .int n => pure n
  | .float q => pure (truncQ q)
  | _ => raise "TypeError: int() argument"

/-- Implicit conversion of a Python number to a .NET integer argument. -/
def pyNetInt (a : PyVal) : Res Int :=
  match pyIntLike a with
  | some n => pure n
  | _ => raise "TypeError: .NET argument conversion"

/-- Python subscription `v[i]`. -/
def pyIndex (v : PyVal) (i : Nat) : Res PyVal :=
  match v with
  | .tuple xs =>
    match xs.get? i with
    | some x => pure x
    | _ => raise "IndexError: index out of range"
  | _ => raise "TypeError: not subscriptable"

end Thorcam

namespace Thorcam

/-- The dynamic instance-attribute store mirroring the settings
(`setattr(self, key, val)` in `read_settings` / `write_setting`). -/
def Store := List (String × PyVal)

/-- Class-level defaults of `ThorCamBase`, the fallback when an instance
attribute has not been assigned. -/
def classDefault : String → PyVal
  | "supported_freqs" => .tuple [.str "20 MHz"]
  | "freq" => .str "20 MHz"
  | "supported_taps" => .tuple [.str "1"]
  | "taps" => .str "1"
  | "supports_color" => .bool false
  | "exposure_range" => .tuple [.int 0, .int 100]
  | "exposure_ms" => .int 5
  | "binning_x_range" => .tuple [.int 0, .int 0]
  | "binning_x" => .int 0
  | "binning_y_range" => .tuple [.int 0, .int 0]
  | "binning_y" => .int 0
  | "sensor_size" => .tuple [.int 0, .int 0]
  | "roi_x" => .int 0
  | "roi_y" => .int 0
  | "roi_width" => .int 0
  | "roi_height" => .int 0
  | "gain_range" => .tuple [.int 0, .int 100]
  | "gain" => .int 0
  | "black_level_range" => .tuple [.int 0, .int 100]
  | "black_level" => .int 0
  | "frame_queue_size" => .int 1
  | "supported_triggers" => .tuple [.str "SW Trigger", .str "HW Trigger"]
  | "trigger_type" => .str "SW Trigger"
  | "trigger_count" => .int 1
  | "num_queued_frames" => .int 0
  | "color_gain" => .tuple [.int 1, .int 1, .int 1]
  | _ => .none

/-- Attribute read `self.name`: the instance attribute if assigned, else
the `ThorCamBase` class attribute. -/
def getAttr (st : Store) (name : String) : PyVal :=
  match st.find? (fun p => p.1 == name) with
  | some p => p.2
  | Option.none => classDefault name

/-- Attribute write `setattr(self, name, v)`. -/
def setAttr (st : Store) (name : String) (v : PyVal) : Store :=
  (name, v) :: st

/-- Apply a changed-settings map to the instance attributes
(`for key, val in values.items(): setattr(self, key, val)`). -/
def setAttrs (st : Store) (values : List (String × PyVal)) : Store :=
  values.foldl (fun s p => setAttr s p.1 p.2) st

/-- `ThorCamBase.settings`: all the possible settings. -/
def settingsList : List String :=
  ["exposure_ms", "binning_x", "binning_y", "roi_x", "roi_y", "roi_width",
   "roi_height", "trigger_type", "trigger_count", "frame_queue_size",
   "gain", "black_level", "freq", "taps", "color_gain"]

/-- `ThorCamBase.play_settings`: the settings that can be set while the
camera is playing. -/
def playSettingsList : List String :=
  ["exposure_ms", "gain", "black_level", "color_gain"]

/-- `ThorCamBase.supported_triggers`. -/
def supportedTriggers : List String := ["SW Trigger", "HW Trigger"]

/-- The `_str_to_freqs_map` keys (its values are the .NET `DataRate` enum
members, which we identify with their string names). -/
def freqStrings : List String := ["20 MHz", "40 MHz", "50 FPS", "30 FPS"]

/-- The `_str_to_taps_map` keys. -/
def tapsStrings : List String := ["4", "2", "1"]

/-- Dictionary lookup `self._str_to_freqs_map[value]` /
`self._str_to_taps_map[value]` (`KeyError` if absent). -/
def strMapLookup (keys : List String) (v : PyVal) : Res String :=
  match v with
  | .str s => if keys.contains s then pure s else raise "KeyError"
  | _ => raise "KeyError"

end Thorcam

namespace Thorcam

/-- `TSICamera.write_setting(cam, setting, value)`: applies one setting to
the driver, clamping numeric values and recomputing dependent ROI fields,
and returns the changed-settings map; the instance attributes are updated
from that map.  A name matching no branch performs no driver call and is
echoed unchanged. -/
def writeSetting (d : Driver) (st : Store) (setting : String) (value : PyVal) :
    Res (Driver × Store × List (String × PyVal)) := do
  outW [.ws setting value]
  if setting = "exposure_ms" then
    let hi ← pyIndex (getAttr st "exposure_range") 1
    let lo ← pyIndex (getAttr st "exposure_range") 0
    let c ← pyMax (← pyMin value hi) lo
    let us ← pyToInt (← pyMul1000 c)
    drvCall d (.setExposure us)
    let d := {d with exposureUs := us}
    let v := PyVal.float ((us : ℚ) / 1000)
    let values := [("exposure_ms", v)]
    pure (d, setAttrs st values, values)
  else if setting = "binning_x" then
    let hi ← pyIndex (getAttr st "binning_x_range") 1
    let lo ← pyIndex (getAttr st "binning_x_range") 0
    let c ← pyMax (← pyMin value hi) lo
    drvCall d .getRoiBin
    let n ← pyNetInt c
    let rb := {d.roiBin with binX := n}
    drvCall d (.setRoiBin rb)
    let d := {d with roiBin := rb}
    let values := [("binning_x", c)]
    pure (d, setAttrs st values, values)
  else if setting = "binning_y" then
    let hi ← pyIndex (getAttr st "binning_y_range") 1
    let lo ← pyIndex (getAttr st "binning_y_range") 0
    let c ← pyMax (← pyMin value hi) lo
    drvCall d .getRoiBin
    let n ← pyNetInt c
    let rb := {d.roiBin with binY := n}
    drvCall d (.setRoiBin rb)
    let d := {d with roiBin := rb}
    let values := [("binning_y", c)]
    pure (d, setAttrs st values, values)
  else if setting = "roi_x" then
    let w ← pyIndex (getAttr st "sensor_size") 0
    let x ← pyMax (.int 0) (← pyMin value (← pySub w (.int 1)))
    drvCall d .getRoiBin
    let wid ← pyMin (← pySub w x) (.int d.roiBin.width)
    let xn ← pyNetInt x
    let wn ← pyNetInt wid
    let rb := {d.roiBin with originX := xn, width := wn}
    drvCall d (.setRoiBin rb)
    let d := {d with roiBin := rb}
    let values := [("roi_width", wid), ("roi_x", x)]
    pure (d, setAttrs st values, values)
  else if setting = "roi_y" then
    let h ← pyIndex (getAttr st "sensor_size") 1
    let y ← pyMax (.int 0) (← pyMin value (← pySub h (.int 1)))
    drvCall d .getRoiBin
    let hei ← pyMin (← pySub h y) (.int d.roiBin.height)
    let yn ← pyNetInt y
    let hn ← pyNetInt hei
    let rb := {d.roiBin with originY := yn, height := hn}
    drvCall d (.setRoiBin rb)
    let d := {d with roiBin := rb}
    let values := [("roi_height", hei), ("roi_y", y)]
    pure (d, setAttrs st values, values)
  else if setting = "roi_width" then
    let w ← pyIndex (getAttr st "sensor_size") 0
    drvCall d .getRoiBin
    let x := d.roiBin.originX
    let c ← pyMax (.int 1) (← pyMin value (← pySub w (.int x)))
    let wn ← pyNetInt c
    let rb := {d.roiBin with width := wn}
    drvCall d (.setRoiBin rb)
    let d := {d with roiBin := rb}
    let values := [("roi_x", PyVal.int x), ("roi_width", c)]
    pure (d, setAttrs st values, values)
  else if setting = "roi_height" then
    let h ← pyIndex (getAttr st "sensor_size") 1
    drvCall d .getRoiBin
    let y := d.roiBin.originY
    let c ← pyMax (.int 1) (← pyMin value (← pySub h (.int y)))
    let hn ← pyNetInt c
    let rb := {d.roiBin with height := hn}
    drvCall d (.setRoiBin rb)
    let d := {d with roiBin := rb}
    let values := [("roi_y", PyVal.int y), ("roi_height", c)]
    pure (d, setAttrs st values, values)
  else if setting = "trigger_type" then
    let hw ← pyIndex (getAttr st "supported_triggers") 1
    let hwMode := pyEq value hw
    drvCall d (.setOpMode hwMode)
    let d := {d with hwTriggered := hwMode}
    let values := [("trigger_type", value)]
    pure (d, setAttrs st values, values)
  else if setting = "trigger_count" then
    let c ← pyMax (.int 0) value
    let n ← pyNetInt c
    drvCall d (.setFramesPerTrigger n)
    let d := {d with framesPerTrigger := n}
    let values := [("trigger_count", value)]
    pure (d, setAttrs st values, values)
  else if setting = "frame_queue_size" then
    let c ← pyMax (.int 1) value
    let n ← pyNetInt c
    drvCall d (.setMaxFrames n)
    let d := {d with maxFrames := n}
    let values := [("frame_queue_size", value)]
    pure (d, setAttrs st values, values)
  else if setting = "gain" then
    let hi ← pyIndex (getAttr st "gain_range") 1
    let lo ← pyIndex (getAttr st "gain_range") 0
    let n ← pyToInt (← pyMax (← pyMin value hi) lo)
    drvCall d (.setGain n)
    let d := {d with gain := n}
    let values := [("gain", PyVal.int n)]
    pure (d, setAttrs st values, values)
  else if setting = "black_level" then
    let hi ← pyIndex (getAttr st "black_level_range") 1
    let lo ← pyIndex (getAttr st "black_level_range") 0
    let n ← pyToInt (← pyMax (← pyMin value hi) lo)
    drvCall d (.setBlackLevel n)
    let d := {d with blackLevel := n}
    let values := [("black_level", PyVal.int n)]
    pure (d, setAttrs st values, values)
  else if setting = "freq" then
    let s ← strMapLookup freqStrings value
    drvCall d (.setDataRate s)
    let d := {d with dataRate := s}
    let values := [("freq", value)]
    pure (d, setAttrs st values, values)
  else if setting = "taps" ∧ pyTruthy value then
    let s ← strMapLookup tapsStrings value
    drvCall d (.setTaps s)
    let d := {d with taps := s}
    let values := [("taps", value)]
    pure (d, setAttrs st values, values)
  else if setting = "color_gain" then
    if pyTruthy (getAttr st "supports_color") then
      match value with
      | .tuple [r, g, b] =>
        match asNum r, asNum g, asNum b with
        | some rq, some gq, some bq => do
          drvCall d .removeColorMatrix
          drvCall d (.insertColorMatrix [rq, 0, 0, 0, gq, 0, 0, 0, bq])
          let values := [("color_gain", value)]
          pure (d, setAttrs st values, values)
        | _, _, _ => raise "TypeError: color matrix entries"
      | _ => raise "ValueError: cannot unpack color_gain"
    else
      let v := PyVal.tuple [.int 1, .int 1, .int 1]
      let values := [("color_gain", v)]
      pure (d, setAttrs st values, values)
  else
    let values := [(setting, value)]
    pure (d, setAttrs st values, values)

end Thorcam

namespace Thorcam

/-- Payload of an `exception` event: `(str(e), exc_info)`; the traceback
text is opaque and modelled as the empty string. -/
def excPayload (msg : String) : PyVal := .tuple [.str msg, .str ""]

/-- The error message raised by `verify_setting` for a rejected name. -/
def verifyErrMsg (playing : Bool) (setting : PyVal) : String :=
  if playing then
    "Setting \"" ++ pyFormat setting ++
      "\" cannot be set while the camera is playing"
  else
    "Setting \"" ++ pyFormat setting ++ "\" is not recognized"

/-- Python `setting in <list of strings>`. -/
def settingMem (v : PyVal) (l : List String) : Bool :=
  match v with
  | .str s => l.contains s
  | _ => false

/-- The membership check of `TSICamera.verify_setting`: `play_settings`
while playing, the full `settings` list otherwise. -/
def verifyOk (playing : Bool) (setting : PyVal) : Bool :=
  if playing then settingMem setting playSettingsList
  else settingMem setting settingsList

/-- The outcome of one step of the control loop: actions performed, the
updated driver and store, and the message of an uncaught Python exception
if one escaped (to be handled by `camera_run`'s `except` clause). -/
structure StepOut where
  acts : List Act
  d : Driver
  st : Store
  exc : Option String

/-- Handling of one `("setting", value)` request by `camera_run`:
`verify_setting` either rejects (one `exception` event, nothing else) or
the setting is written and echoed as a `setting` event. -/
def handleSettingReq (playing : Bool) (d : Driver) (st : Store) (value : PyVal) :
    StepOut :=
  match value with
  | .tuple [name, x] =>
    if verifyOk playing name then
      match name with
      | .str s =>
        match writeSetting d st s x with
        | .ok was (d', st', values) =>
          ⟨was.map wactToAct ++ [.emit "setting" (.dict values)], d', st', Option.none⟩
        | .err was e => ⟨was.map wactToAct, d, st, some e⟩
      | _ => ⟨[], d, st, some "unreachable: non-string verified name"⟩
    else
      ⟨[.emit "exception" (excPayload (verifyErrMsg playing name))], d, st,
        Option.none⟩
  | _ => ⟨[], d, st, some "TypeError: cannot unpack setting request"⟩

/-- `TSICamera.read_frame(cam)`: polls the hardware queue and returns the
frame message value if a frame is available. -/
def readFrame (color : Bool) (d : Driver) : Res (Driver × Option PyVal) := do
  drvCall d .getNumQueued
  match d.frames with
  | [] => pure (d, Option.none)
  | slot :: rest =>
    let d' := {d with frames := rest}
    if slot.queued ≤ 0 then
      pure (d', Option.none)
    else do
      drvCall d .getPendingFrame
      match slot.frame with
      | Option.none => pure (d', Option.none)
      | some f =>
        if color then do
          drvCall d .demosaic
          drvCall d .transform48
          pure (d', some (.tuple [.bytes f.processed, .str "bgr48le",
            .tuple [.int f.w, .int f.h], .int f.number, .int slot.queued,
            .float f.time]))
        else
          pure (d', some (.tuple [.bytes f.raw, .str "gray16le",
            .tuple [.int f.w, .int f.h], .int f.number, .int slot.queued,
            .float f.time]))

/-- `TSICamera.read_settings(cam)`: reads the full settings snapshot from
the driver, returns it as an ordered map and mirrors it onto the instance
attributes. -/
def readSettings (d : Driver) (st : Store) :
    Res (List (String × PyVal) × Store) := do
  drvCall d .getExposureRange
  let expRange := PyVal.tuple
    [.float ((d.exposureRangeUs.1 : ℚ) / 1000),
     .float ((d.exposureRangeUs.2 : ℚ) / 1000)]
  drvCall d .getExposure
  let expMs := PyVal.float ((d.exposureUs : ℚ) / 1000)
  drvCall d .getRoiBin
  drvCall d .getBinXRange
  drvCall d .getBinYRange
  drvCall d .getSensorW
  drvCall d .getSensorH
  drvCall d .getMaxFrames
  drvCall d .getFramesPerTrigger
  drvCall d .getOpMode
  drvCall d .getGainRange
  let gain : PyVal ←
    if d.gainRange.2 = 0 then pure (.int 0)
    else do
      drvCall d .getGain
      pure (.int d.gain)
  drvCall d .getBlackRange
  let blackLevel : PyVal ←
    if d.blackRange.2 = 0 then pure (.int 0)
    else do
      drvCall d .getBlackLevel
      pure (.int d.blackLevel)
  drvCall d (.isRateSupported "20 MHz")
  drvCall d (.isRateSupported "40 MHz")
  drvCall d (.isRateSupported "30 FPS")
  drvCall d (.isRateSupported "50 FPS")
  let freqs := (if d.rate20 then [PyVal.str "20 MHz"] else []) ++
    (if d.rate40 then [PyVal.str "40 MHz"] else []) ++
    (if d.fps30 then [PyVal.str "30 FPS"] else []) ++
    (if d.fps50 then [PyVal.str "50 FPS"] else [])
  let freq : List (String × PyVal) ←
    if freqs.isEmpty then pure []
    else do
      drvCall d .getDataRate
      if freqStrings.contains d.dataRate then
        pure [("freq", PyVal.str d.dataRate)]
      else raise "KeyError"
  drvCall d (.isTapsSupported "4")
  let supportedTaps : List PyVal ←
    if d.tapsQuad then pure [.str "1", .str "2", .str "4"]
    else do
      drvCall d (.isTapsSupported "2")
      if d.tapsDual then pure [.str "1", .str "2"]
      else do
        drvCall d (.isTapsSupported "1")
        if d.tapsSingle then pure [.str "1"] else pure []
  let taps : PyVal ←
    if supportedTaps.isEmpty then pure (.str "")
    else do
      drvCall d .getTaps
      if tapsStrings.contains d.taps then pure (.str d.taps)
      else raise "KeyError"
  drvCall d .getSensorType
  let dict : List (String × PyVal) :=
    [("exposure_range", expRange),
     ("exposure_ms", expMs),
     ("binning_x_range", .tuple [.int d.binXRange.1, .int d.binXRange.2]),
     ("binning_x", .int d.roiBin.binX),
     ("binning_y_range", .tuple [.int d.binYRange.1, .int d.binYRange.2]),
     ("binning_y", .int d.roiBin.binY),
     ("sensor_size", .tuple [.int d.sensorW, .int d.sensorH]),
     ("roi_x", .int d.roiBin.originX),
     ("roi_y", .int d.roiBin.originY),
     ("roi_width", .int d.roiBin.width),
     ("roi_height", .int d.roiBin.height),
     ("frame_queue_size", .int d.maxFrames),
     ("trigger_count", .int d.framesPerTrigger),
     ("trigger_type", .str (if d.hwTriggered then "HW Trigger"
        else "SW Trigger")),
     ("gain_range", .tuple [.int d.gainRange.1, .int d.gainRange.2]),
     ("gain", gain),
     ("black_level_range", .tuple [.int d.blackRange.1, .int d.blackRange.2]),
     ("black_level", blackLevel)] ++
    [("supported_freqs", .tuple freqs)] ++ freq ++
    [("supported_taps", .tuple supportedTaps),
     ("taps", taps),
     ("supports_color", .bool d.isBayer),
     ("color_gain", getAttr st "color_gain")]
  pure (dict, setAttrs st dict)

end Thorcam

namespace Thorcam

/-- One observation the control thread makes on its request queue
`to_cam_queue`: a queued `(msg, value)` request, or the queue found empty
by a non-blocking `get` (raising `queue.Empty`). -/
inductive ScriptItem where
  | req (msg : String) (value : PyVal)
  | empty

/-- How the inner non-blocking drain of the playing loop ended. -/
inductive DrainExit where
  | closed        -- a `close_cam` request broke the outer loop
  | stopped       -- a `stop` request disarmed the camera
  | kept          -- `queue.Empty`: still playing, go poll a frame
  | crashed (e : String)  -- an uncaught Python exception escaped

/-- The inner `while True` drain of requests while playing: non-blocking
`get`s handled until `close_cam`, `stop` or `Empty` breaks it. -/
def drainPlay (d : Driver) (st : Store) :
    List ScriptItem → List Act × Driver × Store × List ScriptItem × DrainExit
  | [] => ([], d, st, [], .kept)
  | .empty :: script => ([], d, st, script, .kept)
  | .req m v :: script =>
    if m = "close_cam" then ([], d, st, script, .closed)
    else if m = "stop" then
      match drvCall d .disarm with
      | .ok as _ =>
        (as.map wactToAct ++ [.emit "playing" (.bool false)],
          {d with isArmed := false}, st, script, .stopped)
      | .err as e => (as.map wactToAct, d, st, script, .crashed e)
    else if m = "setting" then
      let s := handleSettingReq true d st v
      match s.exc with
      | some e => (s.acts, s.d, s.st, script, .crashed e)
      | Option.none =>
        let (acts, d', st', script', exit) := drainPlay s.d s.st script
        (s.acts ++ acts, d', st', script', exit)
    else
      drainPlay d st script

/-- Result of the request/poll loop of `camera_run` (the `while msg !=
'close_cam'` loop): actions performed, final driver and store, and the
uncaught exception if the loop crashed rather than exited. -/
structure LoopOut where
  acts : List Act
  d : Driver
  st : Store
  exc : Option String

/-- Prefix a completed loop result with already-performed actions. -/
def LoopOut.prepend (as : List Act) (l : LoopOut) : LoopOut :=
  ⟨as ++ l.acts, l.d, l.st, l.exc⟩

/-- The request/poll loop of `camera_run`: while idle it blocks on the
request queue; while playing it drains the queue without blocking and then
polls for one frame.  Fuel-bounded: `none` means the loop is still
running after `fuel` iterations. -/
def runLoop (color : Bool) :
    Nat → Bool → Driver → Store → List ScriptItem → Option LoopOut
  | 0, _, _, _, _ => Option.none
  | fuel + 1, true, d, st, script =>
    match drainPlay d st script with
    | (acts, d', st', script', exit) =>
      match exit with
      | .closed => some ⟨acts, d', st', Option.none⟩
      | .crashed e => some ⟨acts, d', st', some e⟩
      | .stopped =>
        match runLoop color fuel false d' st' script' with
        | some l => some (l.prepend acts)
        | Option.none => Option.none
      | .kept =>
        match readFrame color d' with
        | .ok fas (d'', Option.none) =>
          match runLoop color fuel true d'' st' script' with
          | some l => some (l.prepend (acts ++ fas.map wactToAct))
          | Option.none => Option.none
        | .ok fas (d'', some img) =>
          match runLoop color fuel true d'' st' script' with
          | some l => some (l.prepend
              (acts ++ fas.map wactToAct ++ [.emit "image" img]))
          | Option.none => Option.none
        | .err fas e => some ⟨acts ++ fas.map wactToAct, d', st', some e⟩
  | fuel + 1, false, d, st, script =>
    match script with
    | [] => Option.none
    | .empty :: script' => runLoop color fuel false d st script'
    | .req m v :: script' =>
      if m = "close_cam" then some ⟨[], d, st, Option.none⟩
      else if m = "play" then
        match drvCall d .arm with
        | .err as e => some ⟨as.map wactToAct, d, st, some e⟩
        | .ok as _ =>
          let d := {d with isArmed := true}
          let swTrig := pyEq (getAttr st "trigger_type") (.str "SW Trigger")
          match (if swTrig then drvCall d .issueTrigger else pure ()) with
          | .err as2 e =>
            some ⟨(as ++ as2).map wactToAct, d, st, some e⟩
          | .ok as2 _ =>
            match runLoop color fuel true d st script' with
            | some l => some (l.prepend
                ((as ++ as2).map wactToAct ++ [.emit "playing" (.bool true)]))
            | Option.none => Option.none
      else if m = "setting" then
        let s := handleSettingReq false d st v
        match s.exc with
        | some e => some ⟨s.acts, s.d, s.st, some e⟩
        | Option.none =>
          match runLoop color fuel false s.d s.st script' with
          | some l => some (l.prepend s.acts)
          | Option.none => Option.none
      else runLoop color fuel false d st script'

end Thorcam

namespace Thorcam

/-- Run driver calls until the first one that raises; the raised exception
is swallowed (`except: pass` of `camera_run`'s cleanup). -/
def tryCalls (d : Driver) : List DriverCall → List Act
  | [] => []
  | c :: cs =>
    if d.throws.contains c.callName then []
    else .drv c :: tryCalls d cs

/-- The cleanup of `camera_run`'s `finally` block after the `cam_closed`
event: disarm if armed, dispose the camera, then dispose the demosaicker
and color processor when they were created. -/
def disposeActs (opened : Bool) (hasDemosaic hasColor : Bool) (d : Driver) :
    List Act :=
  tryCalls d
    ((if opened then (if d.isArmed then [.disarm] else []) ++ [.dispose]
      else []) ++
     (if hasDemosaic then [.disposeDemosaic] else []) ++
     (if hasColor then [.disposeColor] else []))

/-- Result of the `try` block of `camera_run`: actions performed, final
driver and store, which collaborators were created (for the cleanup), and
the uncaught exception if it raised. -/
structure BodyOut where
  acts : List Act
  d : Driver
  st : Store
  opened : Bool
  hasDemosaic : Bool
  hasColor : Bool
  exc : Option String

/-- The `try` block of `TSICamera.camera_run`: open the camera, read and
publish the settings, set up the color pipeline for Bayer sensors, emit
`settings` and `cam_open`, perform the hard-coded `c_gain` write, then
enter the request/poll loop. -/
def runBody (fuel : Nat) (serial : String) (d : Driver) (st : Store)
    (script : List ScriptItem) : Option BodyOut :=
  match drvCall d (.openCamera serial) with
  | .err oas e => some ⟨oas.map wactToAct, d, st, false, false, false, some e⟩
  | .ok oas _ =>
    let openActs := oas.map wactToAct
    match readSettings d st with
    | .err ras e =>
      some ⟨openActs ++ ras.map wactToAct, d, st, true, false, false, some e⟩
    | .ok ras (dict, st1) =>
      let preActs := openActs ++ ras.map wactToAct
      let supColor := pyTruthy (getAttr st1 "supports_color")
      let colorStep : Res Unit × Bool × Bool :=
        if supColor then
          match drvCall d .createColorProcessor with
          | .err cas e => (.err cas e, false, false)
          | .ok c1 _ =>
            match drvCall d (.insertColorMatrix [1, 0, 0, 0, 1, 0, 0, 0, 1]) with
            | .err cas e => (.err (c1 ++ cas) e, false, true)
            | .ok c2 _ =>
              match drvCall d .createDemosaicker with
              | .err cas e => (.err (c1 ++ c2 ++ cas) e, false, true)
              | .ok c3 _ => (.ok (c1 ++ c2 ++ c3) (), true, true)
        else (.ok [] (), false, false)
      match colorStep with
      | (.err cas e, hasDem, hasCol) =>
        some ⟨preActs ++ cas.map wactToAct, d, st1, true, hasDem, hasCol,
          some e⟩
      | (.ok cas _, hasDem, hasCol) =>
        let preActs := preActs ++ cas.map wactToAct ++
          [.emit "settings" (.dict dict), .emit "cam_open" .none]
        match writeSetting d st1 "c_gain" (.tuple [.int 10, .int 0, .int 0]) with
        | .err was e =>
          some ⟨preActs ++ was.map wactToAct, d, st1, true, hasDem, hasCol,
            some e⟩
        | .ok was (d1, st2, _) =>
          match runLoop hasCol fuel false d1 st2 script with
          | Option.none => Option.none
          | some l =>
            some ⟨preActs ++ was.map wactToAct ++ l.acts, l.d, l.st, true,
              hasDem, hasCol, l.exc⟩

/-- `TSICamera.camera_run`: the `try` body, then the `except` clause's
`exception` event if it raised, then the `finally` clause's `cam_closed`
event and driver cleanup.  `none` means the thread has not terminated
within `fuel` loop iterations. -/
def cameraRun (fuel : Nat) (serial : String) (d : Driver) (st : Store)
    (script : List ScriptItem) : Option (List Act) :=
  (runBody fuel serial d st script).map fun b =>
    b.acts ++
    (match b.exc with
      | some e => [.emit "exception" (excPayload e)]
      | Option.none => []) ++
    [.emit "cam_closed" .none] ++
    disposeActs b.opened b.hasDemosaic b.hasColor b.d

/-- The tags of the events a trace puts on `from_cam_queue`, in order. -/
def emitTags (acts : List Act) : List String :=
  acts.filterMap fun a =>
    match a with
    | .emit tag _ => some tag
    | _ => Option.none

/-- The events (tag and value) a trace puts on `from_cam_queue`, in
order. -/
def emittedEvents (acts : List Act) : List (String × PyVal) :=
  acts.filterMap fun a =>
    match a with
    | .emit tag v => some (tag, v)
    | _ => Option.none

end Thorcam

namespace Thorcam

/-- The `TSICamera` object held by the server (`ThorCamServer.tsi_cam`):
the live camera session, identified by the serial it was opened with. -/
structure CamHandle where
  serial : PyVal

/-- The observable effect of `ThorCamServer.process_client_message` on one
message: the new `tsi_cam`, the messages sent back on the socket, the
requests forwarded to the camera thread's queue, how many times the sdk
device-discovery call was made, and the method's return value. -/
structure ServerEff where
  cam : Option CamHandle
  sent : List (String × PyVal)
  forwarded : List (String × PyVal)
  discoverCalls : Nat
  ret : Option String

/-- `ThorCamServer.process_client_message(sock, msg, value)`:
session-scoped requests are forwarded to the camera thread when a session
exists; `open_cam` creates the session when none exists; violations raise
`TypeError`, which the method catches and reports as one `exception`
message to the client.  `attached` is the serial list the sdk discovery
call would return. -/
def processClientMessage (attached : List String) (cam : Option CamHandle)
    (msg : String) (value : PyVal) : ServerEff :=
  if ["close_cam", "play", "stop", "setting"].contains msg then
    match cam with
    | Option.none =>
      ⟨Option.none, [("exception", excPayload "No camera has been opened")],
        [], 0, Option.none⟩
    | some c => ⟨some c, [], [(msg, value)], 0, Option.none⟩
  else if msg = "open_cam" then
    match cam with
    | some c =>
      ⟨some c, [("exception", excPayload "Camera has already been opened")],
        [], 0, Option.none⟩
    | Option.none => ⟨some ⟨value⟩, [], [], 0, Option.none⟩
  else if msg = "eof" then ⟨cam, [], [], 0, some "eof"⟩
  else if msg = "serials" then
    ⟨cam, [("serials", .tuple ((attached.mergeSort (· ≤ ·)).map .str))],
      [], 1, Option.none⟩
  else ⟨cam, [], [], 0, Option.none⟩

/-- `ThorCamServer.process_cam_message(sock, msg, value)`: forwards a
camera event to the client, clearing `tsi_cam` when the event is
`cam_closed`. -/
def processCamMessage (cam : Option CamHandle) (msg : String) (value : PyVal) :
    Option CamHandle × List (String × PyVal) :=
  ((if msg = "cam_closed" then Option.none else cam), [(msg, value)])

end Thorcam

namespace Thorcam

/-- Big-endian 4-byte encoding of one `>I` field of `struct.pack('>II')`. -/
def packU32 (n : Nat) : List Nat :=
  [n / 2 ^ 24 % 256, n / 2 ^ 16 % 256, n / 2 ^ 8 % 256, n % 256]

/-- Big-endian decoding of one `>I` field of `struct.unpack('>II')`. -/
def unpackU32 (a b c d : Nat) : Nat := ((a * 256 + b) * 256 + c) * 256 + d

/-- `ThorCamServer.send_msg(sock, msg, value)`: for `image`, the leading
raw buffer of the value is split off and sent as the trailing binary
payload; everything else is text-encoded by the structured-text codec
`enc` (the yaml dump of `(msg, value)` as utf-8 bytes).  The 8-byte header
carries the text length and the binary length; `none` models
`struct.error` for an out-of-range length. -/
def sendMsgBytes (enc : String × PyVal → List Nat) (msg : String)
    (value : PyVal) : Option (List Nat) :=
  if msg = "image" then
    match value with
    | .tuple (.bytes buff :: rest) =>
      let text := enc (msg, .tuple rest)
      if text.length < 2 ^ 32 ∧ buff.length < 2 ^ 32 then
        some (packU32 text.length ++ packU32 buff.length ++ text ++ buff)
      else Option.none
    | _ => Option.none
  else
    let text := enc (msg, value)
    if text.length < 2 ^ 32 then
      some (packU32 text.length ++ packU32 0 ++ text)
    else Option.none

/-- `ThorCamClient.decode_data(msg_buff, msg_len)`: checks the buffer
length against the header, text-decodes the first `n` bytes with the codec
`dec` (yaml load), and for `image` prepends the trailing binary payload to
the decoded value tuple; for every other tag asserts that the binary
length is zero. -/
def decodeData (dec : List Nat → Option (String × PyVal)) (msgBuff : List Nat)
    (n binN : Nat) : Option (String × PyVal) :=
  if n + binN = msgBuff.length then
    match dec (msgBuff.take n) with
    | some (msg, value) =>
      if msg = "image" then
        match value with
        | .tuple rest => some (msg, .tuple (.bytes (msgBuff.drop n) :: rest))
        | _ => Option.none
      else if binN = 0 then some (msg, value) else Option.none
    | Option.none => Option.none
  else Option.none

/-- The completed-read path of `ThorCamClient.read_msg`: the first 8 bytes
are unpacked as `(text_len, binary_len)` and the remainder of the framed
message is decoded by `decode_data`. -/
def decodeStream (dec : List Nat → Option (String × PyVal)) :
    List Nat → Option (String × PyVal)
  | a :: b :: c :: d :: e :: f :: g :: h :: rest =>
    decodeData dec rest (unpackU32 a b c d) (unpackU32 e f g h)
  | _ => Option.none

end Thorcam

namespace Thorcam

/-- A sample driver configuration: a monochrome camera with no supported
data rates or taps, used to evaluate the theorems on concrete inputs. -/
def sampleDriver : Driver := {}

/-- A fresh instance-attribute store (all attributes at their
`ThorCamBase` class defaults). -/
def sampleStore : Store := ([] : List (String × PyVal))


/-- The text-encoded part of an `image` value: the leading raw buffer is
split off (`buff, *value = value`). -/
def imageTextValue : PyVal → PyVal
  | .tuple (_ :: rest) => .tuple rest
  | v => v

/-- The value whose text encoding `send_msg` actually transmits: for
`image` the leading raw buffer is split off before encoding, every other
tag is encoded whole. -/
def sentTextValue (msg : String) (v : PyVal) : PyVal :=
  if msg = "image" then imageTextValue v else v


/-! ## Generic lemmas about traces -/

theorem emitTags_append (a b : List Act) :
    emitTags (a ++ b) = emitTags a ++ emitTags b := by
  simp [emitTags, List.filterMap_append]

theorem emittedEvents_append (a b : List Act) :
    emittedEvents (a ++ b) = emittedEvents a ++ emittedEvents b := by
  simp [emittedEvents, List.filterMap_append]

theorem emitTags_map_wact (l : List WAct) : emitTags (l.map wactToAct) = [] := by
  induction l with
  | nil => rfl
  | cons a l ih => cases a <;> simp [emitTags, wactToAct] at ih ⊢ <;> exact ih

theorem emittedEvents_map_wact (l : List WAct) :
    emittedEvents (l.map wactToAct) = [] := by
  induction l with
  | nil => rfl
  | cons a l ih =>
    cases a <;> simp [emittedEvents, wactToAct] at ih ⊢ <;> exact ih

theorem emitTags_tryCalls (d : Driver) (cs : List DriverCall) :
    emitTags (tryCalls d cs) = [] := by
  induction cs with
  | nil => rfl
  | cons c cs ih =>
    unfold tryCalls
    split
    · rfl
    · simpa [emitTags] using ih

theorem emitTags_disposeActs (opened hasDem hasCol : Bool) (d : Driver) :
    emitTags (disposeActs opened hasDem hasCol d) = [] := by
  unfold disposeActs; exact emitTags_tryCalls ..

theorem acts_out_bind (w : WAct) (f : Unit → Res α) :
    (outW [w] >>= f).acts = w :: (f ()).acts := by
  cases h : f () <;> simp [Bind.bind, Res.bind, Res.acts, outW, h]

/-- Every run of `write_setting` begins by entering the function (the
`ws` marker), whatever it then does. -/
theorem writeSetting_acts_cons (d : Driver) (st : Store) (s : String)
    (x : PyVal) :
    ∃ rest, (writeSetting d st s x).acts = WAct.ws s x :: rest := by
  unfold writeSetting
  exact ⟨_, acts_out_bind _ _⟩

/-- A setting name matching none of `write_setting`'s branches performs no
driver call, stores the value unchanged and echoes `{name: value}`. -/
theorem writeSetting_unmatched (d : Driver) (st : Store) (name : String)
    (v : PyVal) (h : ¬ name ∈ settingsList) :
    writeSetting d st name v =
      .ok [.ws name v] (d, setAttr st name v, [(name, v)]) := by
  simp only [settingsList, List.mem_cons, List.not_mem_nil, or_false,
    not_or] at h
  obtain ⟨h1, h2, h3, h4, h5, h6, h7, h8, h9, h10, h11, h12, h13, h14, h15⟩ := h
  simp [writeSetting, h1, h2, h3, h4, h5, h6, h7, h8, h9, h10, h11, h12, h13,
    h14, h15, setAttrs, setAttr]

end Thorcam

namespace Thorcam


/-- C9: for every setting name matching none of `write_setting`'s
recognized branches, `write_setting` performs no driver call, stores the
value on the object unchanged, and returns the one-entry map
`{name: value}`; it never rejects such a name (the result is a normal
return, not an exception). -/
theorem C9_writeSetting_unmatched_echoes (d : Driver) (st : Store)
    (name : String) (v : PyVal) (h : ¬ name ∈ settingsList) :
    writeSetting d st name v =
      .ok [.ws name v] (d, setAttr st name v, [(name, v)]) :=
  writeSetting_unmatched d st name v h

/-- C9 witness: the hard-coded name `c_gain` matches no branch and is
echoed unchanged with no driver call. -/
theorem C9_witness :
    ¬ "c_gain" ∈ settingsList ∧
    writeSetting sampleDriver sampleStore "c_gain"
        (.tuple [.int 10, .int 0, .int 0]) =
      .ok [.ws "c_gain" (.tuple [.int 10, .int 0, .int 0])]
        (sampleDriver,
         setAttr sampleStore "c_gain" (.tuple [.int 10, .int 0, .int 0]),
         [("c_gain", .tuple [.int 10, .int 0, .int 0])]) :=
  ⟨by decide,
   C9_writeSetting_unmatched_echoes sampleDriver sampleStore "c_gain"
     (.tuple [.int 10, .int 0, .int 0]) (by decide)⟩

/-- C4: a session-scoped request (`close_cam`, `play`, `stop`, `setting`)
while no session exists, and an `open_cam` while a session exists, each
produce exactly one `exception` message to the client, no forwarded
request, no sdk discovery call, an unchanged session, and a return value
that keeps the connection alive (not `eof`). -/
theorem C4_server_rejects_bad_session_requests (attached : List String)
    (msg : String) (v : PyVal) :
    (msg ∈ ["close_cam", "play", "stop", "setting"] →
      processClientMessage attached Option.none msg v =
        ⟨Option.none, [("exception", excPayload "No camera has been opened")],
          [], 0, Option.none⟩) ∧
    (∀ c : CamHandle, processClientMessage attached (some c) "open_cam" v =
      ⟨some c, [("exception", excPayload "Camera has already been opened")],
        [], 0, Option.none⟩) := by
  constructor
  · intro h
    simp only [List.mem_cons, List.not_mem_nil, or_false] at h
    rcases h with rfl | rfl | rfl | rfl <;> rfl
  · intro c
    rfl

/-- C4 witness: a `play` with no open session and an `open_cam` with one
are both rejected as specified. -/
theorem C4_witness :
    processClientMessage [] Option.none "play" PyVal.none =
      ⟨Option.none, [("exception", excPayload "No camera has been opened")],
        [], 0, Option.none⟩ ∧
    processClientMessage [] (some ⟨.str "X"⟩) "open_cam" (.str "Y") =
      ⟨some ⟨.str "X"⟩,
        [("exception", excPayload "Camera has already been opened")],
        [], 0, Option.none⟩ :=
  ⟨(C4_server_rejects_bad_session_requests [] "play" PyVal.none).1
      (by simp),
   (C4_server_rejects_bad_session_requests [] "open_cam" (.str "Y")).2
      ⟨.str "X"⟩⟩

/-- C10: forwarding a `cam_closed` event clears the server's session
reference; `process_client_message` changes the session reference only
when it accepts an `open_cam` with no live session; and an `open_cam`
arriving after a `cam_closed` has been forwarded is accepted (a session is
created, nothing is sent back, no exception). -/
theorem C10_session_cleared_on_cam_closed (attached : List String)
    (cam : Option CamHandle) (v serial : PyVal) (msg : String) :
    (processCamMessage cam "cam_closed" v).1 = Option.none ∧
    (∀ w : PyVal, (processClientMessage attached cam msg w).cam = cam ∨
      (msg = "open_cam" ∧ cam = Option.none ∧
        (processClientMessage attached cam msg w).cam = some ⟨w⟩)) ∧
    processClientMessage attached (processCamMessage cam "cam_closed" v).1
        "open_cam" serial =
      ⟨some ⟨serial⟩, [], [], 0, Option.none⟩ := by
  refine ⟨rfl, ?_, rfl⟩
  intro w
  unfold processClientMessage
  split
  · cases cam <;> simp
  · split
    · cases cam with
      | none => right; simp_all [processCamMessage]
      | some c => simp
    · split <;> [simp; skip]
      split <;> simp

end Thorcam

namespace Thorcam

/-- C1 counterexample: with the camera Open/Idle, the name `taps` is in
the full settings list, yet a `setting` request for `("taps", "")` passes
validation and performs zero driver calls (the `taps` branch requires a
truthy value); a `setting` echo is still emitted and nothing raises.  So
"a driver write is applied if and only if the name is in the applicable
set" fails in the forward direction. -/
theorem C1_counterexample :
    "taps" ∈ settingsList ∧
    (handleSettingReq false sampleDriver sampleStore
        (.tuple [.str "taps", .str ""])).acts.countP
      (fun a => match a with | .drv _ => true | _ => false) = 0 ∧
    emitTags (handleSettingReq false sampleDriver sampleStore
        (.tuple [.str "taps", .str ""])).acts = ["setting"] ∧
    (handleSettingReq false sampleDriver sampleStore
        (.tuple [.str "taps", .str ""])).exc = Option.none :=
  ⟨by decide, rfl, rfl, rfl⟩

/-- C1 (amended): a `setting` request enters `write_setting` if and only
if the name is in the applicable allowed set (the full settings list while
Open/Idle, the play-settings list while Open/Playing).  For a name outside
the set the control loop emits exactly one `exception` event, performs
zero driver calls and leaves the driver state and the settings store
unchanged.  For a name inside the set, `write_setting` is invoked on the
request, no `exception` event is emitted, and — when `write_setting`
returns normally — exactly one `setting` echo event is emitted. -/
theorem C1_setting_guard (playing : Bool) (d : Driver) (st : Store)
    (n x : PyVal) :
    (verifyOk playing n = false →
      handleSettingReq playing d st (.tuple [n, x]) =
        ⟨[.emit "exception" (excPayload (verifyErrMsg playing n))], d, st,
          Option.none⟩) ∧
    (∀ s : String, n = .str s → verifyOk playing n = true →
      (handleSettingReq playing d st (.tuple [n, x])).acts.head? =
        some (.ws s x) ∧
      (emitTags
        (handleSettingReq playing d st (.tuple [n, x])).acts).count
          "exception" = 0 ∧
      ((handleSettingReq playing d st (.tuple [n, x])).exc = Option.none →
        emitTags (handleSettingReq playing d st (.tuple [n, x])).acts =
          ["setting"])) := by
  constructor
  · intro h
    simp [handleSettingReq, h]
  · rintro s rfl hv
    obtain ⟨rest, hacts⟩ := writeSetting_acts_cons d st s x
    rcases hws : writeSetting d st s x with ⟨was, r⟩ | ⟨was, e⟩
    · rw [hws] at hacts
      simp only [Res.acts] at hacts
      subst hacts
      obtain ⟨dd, stst, values⟩ := r
      have hout : handleSettingReq playing d st (.tuple [.str s, x]) =
          ⟨(WAct.ws s x :: rest).map wactToAct ++
            [.emit "setting" (.dict values)], dd, stst, Option.none⟩ := by
        simp [handleSettingReq, hv, hws]
      rw [hout]
      have htags : emitTags ((WAct.ws s x :: rest).map wactToAct ++
          [Act.emit "setting" (.dict values)]) = ["setting"] := by
        rw [emitTags_append, emitTags_map_wact]
        rfl
      refine ⟨by simp [wactToAct], ?_, fun _ => htags⟩
      rw [htags]
      decide
    · rw [hws] at hacts
      simp only [Res.acts] at hacts
      subst hacts
      have hout : handleSettingReq playing d st (.tuple [.str s, x]) =
          ⟨(WAct.ws s x :: rest).map wactToAct, d, st, some e⟩ := by
        simp [handleSettingReq, hv, hws]
      rw [hout]
      refine ⟨by simp [wactToAct], ?_, by simp⟩
      rw [emitTags_map_wact]
      decide

/-- C1 witness: a rejected name (`bogus` while idle) yields exactly the
single-`exception` outcome, and an accepted name (`trigger_count` while
idle) enters `write_setting` and echoes one `setting` event. -/
theorem C1_witness :
    handleSettingReq false sampleDriver sampleStore
        (.tuple [.str "bogus", .int 1]) =
      ⟨[.emit "exception"
          (excPayload (verifyErrMsg false (.str "bogus")))],
        sampleDriver, sampleStore, Option.none⟩ ∧
    (handleSettingReq false sampleDriver sampleStore
        (.tuple [.str "trigger_count", .int 2])).acts.head? =
      some (.ws "trigger_count" (.int 2)) ∧
    emitTags (handleSettingReq false sampleDriver sampleStore
        (.tuple [.str "trigger_count", .int 2])).acts = ["setting"] :=
  ⟨(C1_setting_guard false sampleDriver sampleStore (.str "bogus")
      (.int 1)).1 (by decide),
   ((C1_setting_guard false sampleDriver sampleStore (.str "trigger_count")
      (.int 2)).2 "trigger_count" rfl (by decide)).1,
   ((C1_setting_guard false sampleDriver sampleStore (.str "trigger_count")
      (.int 2)).2 "trigger_count" rfl (by decide)).2.2 rfl⟩

end Thorcam

namespace Thorcam

theorem truncQ_intCast (m : Int) : truncQ (m : ℚ) = m := by
  unfold truncQ
  split <;> simp

/-- C5: a `setting` write of `exposure_ms` clamps the requested value `v`
to the advertised range `[lo, hi]` before the driver write: the driver
receives `int(max(min(v, hi), lo) * 1000)` microseconds and the echoed
`setting` map sends `exposure_ms` to that microsecond value divided by
`1000.0`. -/
theorem C5_exposure_clamped (d : Driver) (st : Store) (x : PyVal)
    (v lo hi : ℚ)
    (hx : asNum x = some v)
    (hrange : getAttr st "exposure_range" = .tuple [.float lo, .float hi])
    (hth : ¬ "set_ExposureTime_us" ∈ d.throws) :
    writeSetting d st "exposure_ms" x =
      .ok [.ws "exposure_ms" x,
           .drv (.setExposure (truncQ (max (min v hi) lo * 1000)))]
        ({d with exposureUs := truncQ (max (min v hi) lo * 1000)},
         setAttr st "exposure_ms"
           (.float ((truncQ (max (min v hi) lo * 1000) : ℚ) / 1000)),
         [("exposure_ms",
           .float ((truncQ (max (min v hi) lo * 1000) : ℚ) / 1000))]) := by
  rcases x with _ | b | n | q | s | bs | xs | ds <;>
    simp only [asNum, Option.some.injEq, reduceCtorEq] at hx
  · -- bool
    have h0 : truncQ (0 : ℚ) = 0 := by
      rw [show (0 : ℚ) = ((0 : ℤ) : ℚ) by norm_num, truncQ_intCast]
    have h1000 : truncQ (1000 : ℚ) = 1000 := by
      rw [show (1000 : ℚ) = ((1000 : ℤ) : ℚ) by norm_num, truncQ_intCast]
    rcases b with _ | _ <;> simp only [Bool.false_eq_true, if_true, if_false,
      ↓reduceIte] at hx <;> subst hx
    · rcases lt_or_le hi 0 with c1 | c1
      · rcases lt_or_le hi lo with c2 | c2
        · simp [writeSetting, hrange, pyIndex, pyMin, pyMax, pyMul1000,
          pyToInt, asNum, drvCall, DriverCall.callName, hth, setAttrs, setAttr, c1, c2, min_eq_right c1.le, max_eq_right c2.le]
        · simp [writeSetting, hrange, pyIndex, pyMin, pyMax, pyMul1000,
          pyToInt, asNum, drvCall, DriverCall.callName, hth, setAttrs, setAttr, c1, not_lt.mpr c2, min_eq_right c1.le,
            max_eq_left c2]
      · rcases lt_or_le (0 : ℚ) lo with c2 | c2
        · simp [writeSetting, hrange, pyIndex, pyMin, pyMax, pyMul1000,
          pyToInt, asNum, drvCall, DriverCall.callName, hth, setAttrs, setAttr, not_lt.mpr c1, c2, min_eq_left c1,
            max_eq_right c2.le]
        · simp [writeSetting, hrange, pyIndex, pyMin, pyMax, pyMul1000,
          pyToInt, asNum, drvCall, DriverCall.callName, hth, setAttrs, setAttr, not_lt.mpr c1, not_lt.mpr c2, min_eq_left c1,
            max_eq_left c2, h0]
    · rcases lt_or_le hi 1 with c1 | c1
      · rcases lt_or_le hi lo with c2 | c2
        · simp [writeSetting, hrange, pyIndex, pyMin, pyMax, pyMul1000,
          pyToInt, asNum, drvCall, DriverCall.callName, hth, setAttrs, setAttr, c1, c2, min_eq_right c1.le, max_eq_right c2.le]
        · simp [writeSetting, hrange, pyIndex, pyMin, pyMax, pyMul1000,
          pyToInt, asNum, drvCall, DriverCall.callName, hth, setAttrs, setAttr, c1, not_lt.mpr c2, min_eq_right c1.le,
            max_eq_left c2]
      · rcases lt_or_le (1 : ℚ) lo with c2 | c2
        · simp [writeSetting, hrange, pyIndex, pyMin, pyMax, pyMul1000,
          pyToInt, asNum, drvCall, DriverCall.callName, hth, setAttrs, setAttr, not_lt.mpr c1, c2, min_eq_left c1,
            max_eq_right c2.le]
        · simp [writeSetting, hrange, pyIndex, pyMin, pyMax, pyMul1000,
          pyToInt, asNum, drvCall, DriverCall.callName, hth, setAttrs, setAttr, not_lt.mpr c1, not_lt.mpr c2, min_eq_left c1,
            max_eq_left c2, h1000]
  · -- int
    subst hx
    have hcast : truncQ ((n : ℚ) * 1000) = n * 1000 := by
      rw [show ((n : ℚ) * 1000) = ((n * 1000 : ℤ) : ℚ) by push_cast; ring,
        truncQ_intCast]
    rcases lt_or_le hi (n : ℚ) with c1 | c1
    · rcases lt_or_le hi lo with c2 | c2
      · simp [writeSetting, hrange, pyIndex, pyMin, pyMax, pyMul1000,
          pyToInt, asNum, drvCall, DriverCall.callName, hth, setAttrs, setAttr, c1, c2, min_eq_right c1.le, max_eq_right c2.le]
      · simp [writeSetting, hrange, pyIndex, pyMin, pyMax, pyMul1000,
          pyToInt, asNum, drvCall, DriverCall.callName, hth, setAttrs, setAttr, c1, not_lt.mpr c2, min_eq_right c1.le,
          max_eq_left c2]
    · rcases lt_or_le (n : ℚ) lo with c2 | c2
      · simp [writeSetting, hrange, pyIndex, pyMin, pyMax, pyMul1000,
          pyToInt, asNum, drvCall, DriverCall.callName, hth, setAttrs, setAttr, not_lt.mpr c1, c2, min_eq_left c1,
          max_eq_right c2.le]
      · simp [writeSetting, hrange, pyIndex, pyMin, pyMax, pyMul1000,
          pyToInt, asNum, drvCall, DriverCall.callName, hth, setAttrs, setAttr, not_lt.mpr c1, not_lt.mpr c2, min_eq_left c1,
          max_eq_left c2, hcast]
  · -- float
    subst hx
    rcases lt_or_le hi q with c1 | c1
    · rcases lt_or_le hi lo with c2 | c2
      · simp [writeSetting, hrange, pyIndex, pyMin, pyMax, pyMul1000,
          pyToInt, asNum, drvCall, DriverCall.callName, hth, setAttrs, setAttr, c1, c2, min_eq_right c1.le, max_eq_right c2.le]
      · simp [writeSetting, hrange, pyIndex, pyMin, pyMax, pyMul1000,
          pyToInt, asNum, drvCall, DriverCall.callName, hth, setAttrs, setAttr, c1, not_lt.mpr c2, min_eq_right c1.le,
          max_eq_left c2]
    · rcases lt_or_le q lo with c2 | c2
      · simp [writeSetting, hrange, pyIndex, pyMin, pyMax, pyMul1000,
          pyToInt, asNum, drvCall, DriverCall.callName, hth, setAttrs, setAttr, not_lt.mpr c1, c2, min_eq_left c1,
          max_eq_right c2.le]
      · simp [writeSetting, hrange, pyIndex, pyMin, pyMax, pyMul1000,
          pyToInt, asNum, drvCall, DriverCall.callName, hth, setAttrs, setAttr, not_lt.mpr c1, not_lt.mpr c2, min_eq_left c1,
          max_eq_left c2]

/-- C5 witness: requesting `500` while the advertised range is `[0, 100]`
writes `100000` microseconds and echoes `{exposure_ms: 100.0}`. -/
theorem C5_witness :
    writeSetting sampleDriver
        [("exposure_range", .tuple [.float 0, .float 100])]
        "exposure_ms" (.int 500) =
      .ok [.ws "exposure_ms" (.int 500), .drv (.setExposure 100000)]
        ({sampleDriver with exposureUs := 100000},
         setAttr [("exposure_range", .tuple [.float 0, .float 100])]
           "exposure_ms" (.float 100),
         [("exposure_ms", .float 100)]) := by
  have h := C5_exposure_clamped sampleDriver
    [("exposure_range", .tuple [.float 0, .float 100])]
    (.int 500) 500 0 100 rfl rfl (by decide)
  rw [h]
  norm_num [truncQ]

end Thorcam

namespace Thorcam

theorem pyMin_int (a b : Int) :
    pyMin (.int a) (.int b) = pure (.int (min a b)) := by
  simp only [pyMin, asNum]
  split_ifs with hc
  · rw [min_eq_right (Int.cast_lt.mp hc).le]
  · rw [min_eq_left (by exact_mod_cast not_lt.mp hc)]

theorem pyMax_int (a b : Int) :
    pyMax (.int a) (.int b) = pure (.int (max a b)) := by
  simp only [pyMax, asNum]
  split_ifs with hc
  · rw [max_eq_right (Int.cast_lt.mp hc).le]
  · rw [max_eq_left (by exact_mod_cast not_lt.mp hc)]

theorem pySub_int (a b : Int) :
    pySub (.int a) (.int b) = pure (.int (a - b)) := rfl

theorem pyNetInt_int (a : Int) : pyNetInt (.int a) = pure a := rfl

/-- C6: writing `roi_x` clamps the requested origin to
`[0, sensor_width - 1]`, recomputes the dependent width as
`min(sensor_width - new_x, current ROI width)`, writes both to the driver
in one `set_ROIAndBin` call, and the returned changed-settings map
contains both the clamped `roi_x` and the recomputed `roi_width`. -/
theorem C6_roi_x_recomputes_width (d : Driver) (st : Store) (v w h : Int)
    (hsz : getAttr st "sensor_size" = .tuple [.int w, .int h])
    (hth1 : ¬ "get_ROIAndBin" ∈ d.throws)
    (hth2 : ¬ "set_ROIAndBin" ∈ d.throws) :
    writeSetting d st "roi_x" (.int v) =
      .ok [.ws "roi_x" (.int v), .drv .getRoiBin,
           .drv (.setRoiBin {d.roiBin with
             originX := max 0 (min v (w - 1)),
             width := min (w - max 0 (min v (w - 1))) d.roiBin.width})]
        ({d with roiBin := {d.roiBin with
            originX := max 0 (min v (w - 1)),
            width := min (w - max 0 (min v (w - 1))) d.roiBin.width}},
         setAttrs st
           [("roi_width",
             .int (min (w - max 0 (min v (w - 1))) d.roiBin.width)),
            ("roi_x", .int (max 0 (min v (w - 1))))],
         [("roi_width",
           .int (min (w - max 0 (min v (w - 1))) d.roiBin.width)),
          ("roi_x", .int (max 0 (min v (w - 1))))]) := by
  simp [writeSetting, hsz, pyIndex, pyMin_int, pyMax_int, pySub_int,
    pyNetInt_int, drvCall, DriverCall.callName, hth1, hth2, setAttrs,
    setAttr]

/-- C6 witness: requesting origin `700` on a `1000`-wide sensor with a
current ROI width of `500` clamps to `700` and shrinks the width to
`300`, echoing both. -/
theorem C6_witness :
    writeSetting
        ({ sampleDriver with sensorW := 1000, roiBin := ⟨1, 1, 10, 0, 500, 400⟩ } : Driver)
        [("sensor_size", .tuple [.int 1000, .int 600])] "roi_x"
        (.int 700) =
      .ok [.ws "roi_x" (.int 700), .drv .getRoiBin,
           .drv (.setRoiBin ⟨1, 1, 700, 0, 300, 400⟩)]
        (({ sampleDriver with sensorW := 1000, roiBin := ⟨1, 1, 700, 0, 300, 400⟩ } : Driver),
         setAttrs [("sensor_size", .tuple [.int 1000, .int 600])]
           [("roi_width", .int 300), ("roi_x", .int 700)],
         [("roi_width", .int 300), ("roi_x", .int 700)]) := by
  have hmain := C6_roi_x_recomputes_width
    ({ sampleDriver with sensorW := 1000, roiBin := ⟨1, 1, 10, 0, 500, 400⟩ } : Driver)
    [("sensor_size", .tuple [.int 1000, .int 600])] 700 1000 600 rfl
    (by decide) (by decide)
  rw [hmain]
  norm_num

end Thorcam

namespace Thorcam


theorem unpackU32_eval (n : Nat) (h : n < 2 ^ 32) :
    unpackU32 (n / 2 ^ 24 % 256) (n / 2 ^ 16 % 256) (n / 2 ^ 8 % 256)
      (n % 256) = n := by
  unfold unpackU32
  omega

theorem decodeStream_pack (dec : List Nat → Option (String × PyVal))
    (n m : Nat) (rest : List Nat) (hn : n < 2 ^ 32) (hm : m < 2 ^ 32) :
    decodeStream dec (packU32 n ++ (packU32 m ++ rest)) =
      decodeData dec rest n m := by
  simp only [packU32, List.cons_append, List.nil_append]
  simp only [decodeStream]
  rw [unpackU32_eval n hn, unpackU32_eval m hm]

/-- C2: for every message accepted by the server's `send_msg` (with the
structured-text codec `enc`/`dec` assumed to round-trip the transmitted
pair), decoding the framed bytes with the client's
`read_msg`/`decode_data` path reproduces `(tag, value)` exactly — for
`image` the raw binary payload is prepended as the first element of the
decoded value tuple — and for every tag other than `image` the header's
`binary_len` field is 0. -/
theorem C2_framing_roundtrip (enc : String × PyVal → List Nat)
    (dec : List Nat → Option (String × PyVal))
    (msg : String) (v : PyVal) (bs : List Nat)
    (hrt : dec (enc (msg, sentTextValue msg v)) =
      some (msg, sentTextValue msg v))
    (hsend : sendMsgBytes enc msg v = some bs) :
    decodeStream dec bs = some (msg, v) ∧
    (msg ≠ "image" → ∃ text : List Nat,
      bs = packU32 text.length ++ packU32 0 ++ text) := by
  unfold sendMsgBytes at hsend
  by_cases him : msg = "image"
  · subst him
    rw [if_pos rfl] at hsend
    rcases v with _ | b | n0 | q | s0 | bs0 | xs | ds <;>
      try exact Option.noConfusion hsend
    rcases xs with _ | ⟨hd, rest⟩
    · exact Option.noConfusion hsend
    rcases hd with _ | b | n0 | q | s0 | buff | xs2 | ds <;>
      try exact Option.noConfusion hsend
    have hrt' : dec (enc ("image", PyVal.tuple rest)) =
        some ("image", PyVal.tuple rest) := hrt
    dsimp only at hsend
    split_ifs at hsend with hlen
    · obtain ⟨h1, h2⟩ := hlen
      cases hsend
      refine ⟨?_, fun hne => absurd rfl hne⟩
      simp only [List.append_assoc]
      rw [decodeStream_pack dec _ _ _ h1 h2]
      unfold decodeData
      rw [if_pos (by simp)]
      rw [List.take_left, hrt']
      dsimp only
      rw [if_pos rfl, List.drop_left]
  · rw [if_neg him] at hsend
    rw [sentTextValue, if_neg him] at hrt
    dsimp only at hsend
    split_ifs at hsend with h1
    · cases hsend
      constructor
      · have h0 : (0 : Nat) < 2 ^ 32 := by norm_num
        simp only [List.append_assoc]
        rw [decodeStream_pack dec _ _ _ h1 h0]
        unfold decodeData
        rw [if_pos (by simp)]
        rw [List.take_length, hrt]
        dsimp only
        rw [if_neg him]
        simp
      · exact fun _ => ⟨enc (msg, v), rfl⟩

/-- C2 witness: a concrete `image` message with a one-byte payload,
framed with a codec that is correct on the transmitted pair, decodes back
to the original tagged value with the binary payload re-prepended. -/
theorem C2_witness :
    decodeStream (fun _ => some ("image", .tuple [.str "gray16le"]))
        ((sendMsgBytes (fun _ => []) "image"
          (.tuple [.bytes [7], .str "gray16le"])).getD []) =
      some ("image", .tuple [.bytes [7], .str "gray16le"]) :=
  (C2_framing_roundtrip (fun _ => [])
    (fun _ => some ("image", .tuple [.str "gray16le"]))
    "image" (.tuple [.bytes [7], .str "gray16le"]) _
    rfl rfl).1

end Thorcam

namespace Thorcam

/-! ## The control loop never emits `cam_closed` before its `finally`
clause -/

theorem no_closed_map_wact (l : List WAct) (tag : String) :
    ¬ tag ∈ emitTags (l.map wactToAct) := by
  rw [emitTags_map_wact]
  simp

theorem handleSettingReq_no_closed (playing : Bool) (d : Driver)
    (st : Store) (v : PyVal) :
    ¬ "cam_closed" ∈ emitTags (handleSettingReq playing d st v).acts := by
  unfold handleSettingReq
  split
  · split
    · split
      · split
        · rw [emitTags_append, emitTags_map_wact]
          simp [emitTags]
        · exact no_closed_map_wact _ _
      · simp [emitTags]
    · simp [emitTags]
  · simp [emitTags]

theorem drainPlay_no_closed (script : List ScriptItem) :
    ∀ (d : Driver) (st : Store),
      ¬ "cam_closed" ∈ emitTags (drainPlay d st script).1 := by
  induction script with
  | nil => intro d st; simp [drainPlay, emitTags]
  | cons item rest ih =>
    intro d st
    cases item with
    | empty => simp [drainPlay, emitTags]
    | req m v =>
      unfold drainPlay
      split_ifs with h1 h2 h3
      · simp [emitTags]
      · split
        · rw [emitTags_append, emitTags_map_wact]
          simp [emitTags]
        · exact no_closed_map_wact _ _
      · rcases hexc : (handleSettingReq true d st v).exc with _ | e
        · simp only [hexc]
          rcases hd : drainPlay (handleSettingReq true d st v).d
            (handleSettingReq true d st v).st rest with
            ⟨acts2, d2, st2, sc2, ex2⟩
          simp only [hd, emitTags_append, List.mem_append]
          rintro (hc | hc)
          · exact handleSettingReq_no_closed true d st v hc
          · have := ih (handleSettingReq true d st v).d
              (handleSettingReq true d st v).st
            rw [hd] at this
            exact this hc
        · simp only [hexc]
          exact handleSettingReq_no_closed true d st v
      · exact ih d st

end Thorcam

namespace Thorcam

theorem runLoop_no_closed (color : Bool) :
    ∀ (fuel : Nat) (playing : Bool) (d : Driver) (st : Store)
      (script : List ScriptItem) (l : LoopOut),
      runLoop color fuel playing d st script = some l →
      ¬ "cam_closed" ∈ emitTags l.acts := by
  intro fuel
  induction fuel with
  | zero => intro playing d st script l h; exact Option.noConfusion h
  | succ fuel ih =>
    intro playing d st script l h
    cases playing
    case false =>
      unfold runLoop at h
      cases script with
      | nil => exact Option.noConfusion h
      | cons item script' =>
        cases item with
        | empty => exact ih false d st script' l h
        | req m v =>
          dsimp only at h
          by_cases h1 : m = "close_cam"
          · rw [if_pos h1] at h
            cases h
            simp [emitTags]
          · rw [if_neg h1] at h
            by_cases h2 : m = "play"
            · rw [if_pos h2] at h
              rcases harm : drvCall d .arm with ⟨as, u⟩ | ⟨as, e⟩ <;>
                rw [harm] at h
              · dsimp only at h
                by_cases htrig : pyEq (getAttr st "trigger_type")
                    (.str "SW Trigger") = true <;>
                  [rw [if_pos htrig] at h; rw [if_neg htrig] at h]
                · rcases htr : drvCall {d with isArmed := true}
                      .issueTrigger with ⟨as2, u2⟩ | ⟨as2, e2⟩ <;>
                    rw [htr] at h
                  · rcases hr : runLoop color fuel true
                        {d with isArmed := true} st script' with _ | l2 <;>
                      rw [hr] at h
                    · exact Option.noConfusion h
                    · cases h
                      simp only [LoopOut.prepend, emitTags_append,
                        List.mem_append]
                      rintro ((hc | hc) | hc)
                      · exact no_closed_map_wact _ _ hc
                      · simp [emitTags] at hc
                      · exact ih true _ st script' l2 hr hc
                  · cases h
                    exact no_closed_map_wact _ _
                · rw [pure_def] at h
                  dsimp only at h
                  rcases hr : runLoop color fuel true
                      {d with isArmed := true} st script' with _ | l2 <;>
                    rw [hr] at h
                  · exact Option.noConfusion h
                  · cases h
                    simp only [LoopOut.prepend, emitTags_append,
                      List.mem_append]
                    rintro ((hc | hc) | hc)
                    · exact no_closed_map_wact _ _ hc
                    · simp [emitTags] at hc
                    · exact ih true _ st script' l2 hr hc
              · cases h
                exact no_closed_map_wact _ _
            · rw [if_neg h2] at h
              by_cases h3 : m = "setting"
              · rw [if_pos h3] at h
                rcases hexc : (handleSettingReq false d st v).exc with _ | e
                · simp only [hexc] at h
                  rcases hr : runLoop color fuel false
                      (handleSettingReq false d st v).d
                      (handleSettingReq false d st v).st script' with
                      _ | l2 <;> rw [hr] at h
                  · exact Option.noConfusion h
                  · cases h
                    simp only [LoopOut.prepend, emitTags_append,
                      List.mem_append]
                    rintro (hc | hc)
                    · exact handleSettingReq_no_closed false d st v hc
                    · exact ih false _ _ script' l2 hr hc
                · simp only [hexc] at h
                  cases h
                  exact handleSettingReq_no_closed false d st v
              · rw [if_neg h3] at h
                exact ih false d st script' l h
    case true =>
      unfold runLoop at h
      rcases hd : drainPlay d st script with ⟨acts, d', st', script', exit⟩
      rw [hd] at h
      have hdno : ¬ "cam_closed" ∈ emitTags acts := by
        have := drainPlay_no_closed script d st
        rw [hd] at this
        exact this
      cases exit with
      | closed =>
        dsimp only at h
        cases h
        exact hdno
      | crashed e =>
        dsimp only at h
        cases h
        exact hdno
      | stopped =>
        dsimp only at h
        rcases hr : runLoop color fuel false d' st' script' with _ | l2 <;>
          rw [hr] at h
        · exact Option.noConfusion h
        · cases h
          simp only [LoopOut.prepend, emitTags_append, List.mem_append]
          rintro (hc | hc)
          · exact hdno hc
          · exact ih false d' st' script' l2 hr hc
      | kept =>
        dsimp only at h
        rcases hf : readFrame color d' with ⟨fas, d'', _ | im⟩ | ⟨fas, e⟩ <;>
          rw [hf] at h <;> dsimp only at h
        · rcases hr : runLoop color fuel true d'' st' script' with _ | l2 <;>
            rw [hr] at h
          · exact Option.noConfusion h
          · cases h
            simp only [LoopOut.prepend, emitTags_append, List.mem_append]
            rintro ((hc | hc) | hc)
            · exact hdno hc
            · exact no_closed_map_wact _ _ hc
            · exact ih true d'' st' script' l2 hr hc
        · rcases hr : runLoop color fuel true d'' st' script' with _ | l2 <;>
            rw [hr] at h
          · exact Option.noConfusion h
          · cases h
            simp only [LoopOut.prepend, emitTags_append, List.mem_append]
            rintro (((hc | hc) | hc) | hc)
            · exact hdno hc
            · exact no_closed_map_wact _ _ hc
            · simp [emitTags] at hc
            · exact ih true d'' st' script' l2 hr hc
        · cases h
          simp only [emitTags_append, List.mem_append]
          rintro (hc | hc)
          · exact hdno hc
          · exact no_closed_map_wact _ _ hc

end Thorcam

namespace Thorcam

theorem runBody_no_closed (fuel : Nat) (serial : String) (d : Driver)
    (st : Store) (script : List ScriptItem) (b : BodyOut)
    (h : runBody fuel serial d st script = some b) :
    ¬ "cam_closed" ∈ emitTags b.acts := by
  unfold runBody at h
  split at h
  · cases h
    exact no_closed_map_wact _ _
  · try (dsimp only at h)
    split at h
    · cases h
      simp [emitTags_append, emitTags_map_wact]
    · try (dsimp only at h)
      split at h
      · cases h
        simp [emitTags_append, emitTags_map_wact]
      · try (dsimp only at h)
        split at h
        · cases h
          rw [emitTags_append, emitTags_append, emitTags_append,
            emitTags_append, emitTags_map_wact, emitTags_map_wact,
            emitTags_map_wact, emitTags_map_wact]
          simp [emitTags]
        · rename_i was d1 st2 vals hws
          rcases hr : runLoop _ fuel false d1 st2 script with _ | lres
          · rw [hr] at h
            exact Option.noConfusion h
          · rw [hr] at h
            cases h
            have hl := runLoop_no_closed _ fuel false d1 st2 script lres hr
            unfold emitTags at hl
            simp only [emitTags_append, emitTags_map_wact, emitTags,
              List.mem_append, List.mem_filterMap, not_exists, not_and,
              not_or, List.append_nil, List.nil_append]
            intro x hx hmx
            rcases hx with (((((hx | hx) | hx) | hx) | hx) | hx)
            · obtain ⟨w, hw, rfl⟩ := List.mem_map.mp hx
              cases w <;> simp [wactToAct] at hmx
            · obtain ⟨w, hw, rfl⟩ := List.mem_map.mp hx
              cases w <;> simp [wactToAct] at hmx
            · obtain ⟨w, hw, rfl⟩ := List.mem_map.mp hx
              cases w <;> simp [wactToAct] at hmx
            · simp only [List.mem_cons, List.not_mem_nil, or_false] at hx
              rcases hx with rfl | rfl
              · simp at hmx
              · simp at hmx
            · obtain ⟨w, hw, rfl⟩ := List.mem_map.mp hx
              cases w <;> simp [wactToAct] at hmx
            · exact hl (List.mem_filterMap.mpr ⟨x, hx, hmx⟩)

end Thorcam

namespace Thorcam

/-- C3: every terminating execution of the control loop emits exactly one
`cam_closed` event, it is the last event of the session, and when the run
ends in an uncaught driver exception the `exception` event is emitted
immediately before `cam_closed`.  (The `finally` clause guarantees this on
every exit path: `close_cam` request, driver exception, or normal
termination; even a failed open is followed by `cam_closed`.) -/
theorem C3_cam_closed_exactly_once_last (fuel : Nat) (serial : String)
    (d : Driver) (st : Store) (script : List ScriptItem) (tr : List Act)
    (h : cameraRun fuel serial d st script = some tr) :
    (emitTags tr).count "cam_closed" = 1 ∧
    (emitTags tr).getLast? = some "cam_closed" ∧
    (∀ b : BodyOut, runBody fuel serial d st script = some b →
      b.exc.isSome = true →
      ∃ pre, emitTags tr = pre ++ ["exception", "cam_closed"]) := by
  unfold cameraRun at h
  rcases hb : runBody fuel serial d st script with _ | b <;> rw [hb] at h
  · exact Option.noConfusion h
  · rw [Option.map_some'] at h
    cases h
    have hbn := runBody_no_closed fuel serial d st script b hb
    have htags : emitTags
        (b.acts ++
          (match b.exc with
            | some e => [Act.emit "exception" (excPayload e)]
            | Option.none => []) ++
          [Act.emit "cam_closed" PyVal.none] ++
          disposeActs b.opened b.hasDemosaic b.hasColor b.d) =
        emitTags b.acts ++
          (match b.exc with
            | some e => ["exception"]
            | Option.none => []) ++ ["cam_closed"] := by
      rw [emitTags_append, emitTags_append, emitTags_append,
        emitTags_disposeActs, List.append_nil]
      rcases b.exc with _ | e <;> simp [emitTags]
    rw [htags]
    refine ⟨?_, ?_, ?_⟩
    · rcases hexc : b.exc with _ | e <;>
        simp [List.count_append, List.count_eq_zero.mpr hbn, hexc]
    · rw [List.getLast?_concat]
    · intro b' hb' hsome
      cases hb'
      rcases hexc : b.exc with _ | e
      · rw [hexc] at hsome
        simp at hsome
      · refine ⟨emitTags b.acts, ?_⟩
        simp

/-- C3 witness: a concrete session that opens and is closed by request
emits `cam_closed` exactly once. -/
theorem C3_witness :
    (emitTags ((cameraRun 2 "X" sampleDriver sampleStore
        [.req "close_cam" PyVal.none]).getD [])).count "cam_closed" = 1 := by
  have h : cameraRun 2 "X" sampleDriver sampleStore
      [.req "close_cam" PyVal.none] =
      some ((cameraRun 2 "X" sampleDriver sampleStore
        [.req "close_cam" PyVal.none]).getD []) := rfl
  exact (C3_cam_closed_exactly_once_last 2 "X" sampleDriver sampleStore
    [.req "close_cam" PyVal.none] _ h).1

end Thorcam


namespace Thorcam

/-- Structure of a completed `camera_run` body on a driver that does not
throw: the camera is opened first, the settings snapshot is read and
published as a `settings` event followed by `cam_open`, then the
hard-coded `c_gain` write runs, and only then does the request loop
start.  `pre` is the driver traffic (settings reads and color-pipeline
setup) between the open call and the `settings` event. -/
theorem runBody_decomp (fuel : Nat) (serial : String) (d : Driver)
    (st : Store) (script : List ScriptItem) (b : BodyOut)
    (hth : d.throws = [])
    (ras : List WAct) (dict : List (String × PyVal)) (st1 : Store)
    (hrs : readSettings d st = .ok ras (dict, st1))
    (hb : runBody fuel serial d st script = some b) :
    ∃ (pre : List WAct) (l : LoopOut),
      b.acts = Act.drv (.openCamera serial) :: pre.map wactToAct ++
        Act.emit "settings" (.dict dict) :: Act.emit "cam_open" PyVal.none ::
        Act.ws "c_gain" (.tuple [.int 10, .int 0, .int 0]) :: l.acts ∧
      b.exc = l.exc := by
  have hdc : ∀ c : DriverCall, drvCall d c = .ok [.drv c] () := by
    intro c
    unfold drvCall
    rw [hth]
    rfl
  unfold runBody at hb
  simp only [hdc] at hb
  rw [hrs] at hb
  dsimp only at hb
  by_cases hsc : pyTruthy (getAttr st1 "supports_color") = true
  · rw [if_pos hsc] at hb
    dsimp only at hb
    rw [writeSetting_unmatched d st1 "c_gain"
      (.tuple [.int 10, .int 0, .int 0]) (by decide)] at hb
    dsimp only at hb
    rcases hr : runLoop true fuel false d
        (setAttr st1 "c_gain" (.tuple [.int 10, .int 0, .int 0]))
        script with _ | l
    · rw [hr] at hb
      exact Option.noConfusion hb
    · rw [hr] at hb
      cases hb
      refine ⟨ras ++ [.drv .createColorProcessor,
        .drv (.insertColorMatrix [1, 0, 0, 0, 1, 0, 0, 0, 1]),
        .drv .createDemosaicker], l, ?_, rfl⟩
      simp [wactToAct]
  · rw [if_neg hsc] at hb
    dsimp only at hb
    rw [writeSetting_unmatched d st1 "c_gain"
      (.tuple [.int 10, .int 0, .int 0]) (by decide)] at hb
    dsimp only at hb
    rcases hr : runLoop false fuel false d
        (setAttr st1 "c_gain" (.tuple [.int 10, .int 0, .int 0]))
        script with _ | l
    · rw [hr] at hb
      exact Option.noConfusion hb
    · rw [hr] at hb
      cases hb
      refine ⟨ras, l, ?_, rfl⟩
      simp [wactToAct]

end Thorcam

namespace Thorcam

theorem emittedEvents_cons_drv (c : DriverCall) (xs : List Act) :
    emittedEvents (Act.drv c :: xs) = emittedEvents xs := rfl

theorem emittedEvents_cons_ws (n : String) (v : PyVal) (xs : List Act) :
    emittedEvents (Act.ws n v :: xs) = emittedEvents xs := rfl

theorem emittedEvents_cons_emit (t : String) (v : PyVal) (xs : List Act) :
    emittedEvents (Act.emit t v :: xs) = (t, v) :: emittedEvents xs := rfl

/-- C7: on an `open_cam` that succeeds (driver does not throw and the
settings snapshot reads back), the control loop's very first driver call
opens the camera, and the first two events it emits are the `settings`
snapshot followed by `cam_open` — before any further request is
processed. -/
theorem C7_settings_then_cam_open (fuel : Nat) (serial : String)
    (d : Driver) (st : Store) (script : List ScriptItem) (tr : List Act)
    (hth : d.throws = [])
    (ras : List WAct) (dict : List (String × PyVal)) (st1 : Store)
    (hrs : readSettings d st = .ok ras (dict, st1))
    (h : cameraRun fuel serial d st script = some tr) :
    tr.head? = some (Act.drv (.openCamera serial)) ∧
    ∃ rest, emittedEvents tr = ("settings", .dict dict) ::
      ("cam_open", PyVal.none) :: rest := by
  unfold cameraRun at h
  rcases hb : runBody fuel serial d st script with _ | b <;> rw [hb] at h
  · exact Option.noConfusion h
  · rw [Option.map_some'] at h
    cases h
    obtain ⟨pre, l, hacts, hexc⟩ :=
      runBody_decomp fuel serial d st script b hth ras dict st1 hrs hb
    have hev : emittedEvents b.acts =
        ("settings", PyVal.dict dict) :: ("cam_open", PyVal.none) ::
          emittedEvents l.acts := by
      rw [hacts, emittedEvents_append, emittedEvents_cons_drv,
        emittedEvents_map_wact, emittedEvents_cons_emit,
        emittedEvents_cons_emit, emittedEvents_cons_ws, List.nil_append]
    constructor
    · rw [hacts]
      simp
    · refine ⟨emittedEvents l.acts ++
        emittedEvents
          ((match b.exc with
            | some e => [Act.emit "exception" (excPayload e)]
            | Option.none => []) ++
           [Act.emit "cam_closed" PyVal.none] ++
           disposeActs b.opened b.hasDemosaic b.hasColor b.d), ?_⟩
      rw [List.append_assoc, List.append_assoc, emittedEvents_append, hev]
      simp [emittedEvents_append]

/-- C7 witness: a concrete session against a non-throwing driver starts
with the open call and emits `settings` then `cam_open` first. -/
theorem C7_witness :
    ((cameraRun 2 "X" sampleDriver sampleStore
        [.req "close_cam" PyVal.none]).getD []).head? =
      some (Act.drv (.openCamera "X")) := by
  have h : cameraRun 2 "X" sampleDriver sampleStore
      [.req "close_cam" PyVal.none] =
      some ((cameraRun 2 "X" sampleDriver sampleStore
        [.req "close_cam" PyVal.none]).getD []) := rfl
  exact (C7_settings_then_cam_open 2 "X" sampleDriver sampleStore
    [.req "close_cam" PyVal.none] _ rfl _ _ _ rfl h).1

/-- C8 counterexample: in a concrete complete session the control loop
never invokes `write_setting` for a setting named `color_gain`; the
hard-coded initial write is for the name `c_gain` (which matches no
branch of `write_setting`). -/
theorem C8_counterexample :
    (((cameraRun 2 "X" sampleDriver sampleStore
        [.req "close_cam" PyVal.none]).getD []).any
      (fun a => match a with
        | .ws "color_gain" _ => true
        | _ => false)) = false ∧
    (((cameraRun 2 "X" sampleDriver sampleStore
        [.req "close_cam" PyVal.none]).getD []).any
      (fun a => match a with
        | .ws "c_gain" _ => true
        | _ => false)) = true := ⟨rfl, rfl⟩

/-- C8 (amended): immediately after a session is opened — right after the
`settings` and `cam_open` events — the control loop performs a hard-coded
initial `write_setting` call for the setting named `c_gain` (not
`color_gain`; the name matches no branch of `write_setting`, so the call
stores the attribute and performs no driver write) with value
`(10, 0, 0)`, regardless of camera capability. -/
theorem C8_hardcoded_c_gain_write (fuel : Nat) (serial : String)
    (d : Driver) (st : Store) (script : List ScriptItem) (tr : List Act)
    (hth : d.throws = [])
    (ras : List WAct) (dict : List (String × PyVal)) (st1 : Store)
    (hrs : readSettings d st = .ok ras (dict, st1))
    (h : cameraRun fuel serial d st script = some tr) :
    ∃ pre post, tr = pre ++ Act.emit "cam_open" PyVal.none ::
      Act.ws "c_gain" (.tuple [.int 10, .int 0, .int 0]) :: post := by
  unfold cameraRun at h
  rcases hb : runBody fuel serial d st script with _ | b <;> rw [hb] at h
  · exact Option.noConfusion h
  · rw [Option.map_some'] at h
    cases h
    obtain ⟨pre, l, hacts, hexc⟩ :=
      runBody_decomp fuel serial d st script b hth ras dict st1 hrs hb
    refine ⟨Act.drv (.openCamera serial) :: pre.map wactToAct ++
      [Act.emit "settings" (.dict dict)],
      l.acts ++
        ((match b.exc with
          | some e => [Act.emit "exception" (excPayload e)]
          | Option.none => []) ++
         [Act.emit "cam_closed" PyVal.none] ++
         disposeActs b.opened b.hasDemosaic b.hasColor b.d), ?_⟩
    rw [hacts]
    simp

/-- C8 witness: the adjacency holds on a concrete complete session. -/
theorem C8_witness :
    ∃ pre post, ((cameraRun 2 "X" sampleDriver sampleStore
        [.req "close_cam" PyVal.none]).getD []) =
      pre ++ Act.emit "cam_open" PyVal.none ::
        Act.ws "c_gain" (.tuple [.int 10, .int 0, .int 0]) :: post := by
  have h : cameraRun 2 "X" sampleDriver sampleStore
      [.req "close_cam" PyVal.none] =
      some ((cameraRun 2 "X" sampleDriver sampleStore
        [.req "close_cam" PyVal.none]).getD []) := rfl
  exact C8_hardcoded_c_gain_write 2 "X" sampleDriver sampleStore
    [.req "close_cam" PyVal.none] _ rfl _ _ _ rfl h

end Thorcam
